import Mathlib

/-!
Verification of the illumination program engine of the MLE acquisition
repository (src/acquisition/desktop/LightController.cpp and its header).

Modelling conventions:
- C++ float arithmetic is embedded as exact rational arithmetic over ℚ.
- The unsigned int fields mPrgrmCount and mBufferOffset are embedded as
  Nat kept reduced modulo 2 to the 32: every increment and every
  subtraction in the source is performed with an explicit reduction,
  matching C++ unsigned wraparound (this matters for the expression
  mBufferOffset - (10 * 2) in IncrementPrgrm).
- The frame id mFid is an unsigned int as well and is embedded as Nat
  reduced modulo 2 to the 32 on every increment, so it wraps exactly as
  the source does (the wire format then stores the value into a signed
  int field; the record here keeps the unsigned value).
- The moodycamel concurrent queues are used single-threaded by the
  controller, so each is embedded as a FIFO list; try_dequeue on an empty
  queue leaves the out-parameter at its initialised value, here the
  default argument of tryDequeue.
- The logger and the serial transmit queue are collaborators: each call
  the controller makes to them is recorded in an output list.  The
  receive-side drain of the serial queue (lines 286 to 303 of the source)
  only logs externally produced telemetry and touches none of the state
  modelled here, so it is not embedded.
-/

namespace MLE

inductive IMG_CHNL where
  | RED
  | GREEN
  | BLUE
  | MONO
deriving DecidableEq, Repr

inductive MODE where
  | OFF
  | WLE
  | PSE
  | LSCI
  | MULTI
  | SSFDI
  | WARMUP
  | SYNC
deriving DecidableEq, Repr

/-- Numeric value of the MODE enumerator, as logged by std.to_string. -/
def MODE.code : MODE → Nat
  | .OFF => 0
  | .WLE => 1
  | .PSE => 2
  | .LSCI => 3
  | .MULTI => 4
  | .SSFDI => 5
  | .WARMUP => 6
  | .SYNC => 7

/-- One illumination program step: per-diode weights and the colour
channel used for autoexposure (LightController.h, typedef prgrm). -/
abbrev Step := List ℚ × IMG_CHNL

abbrev Prgrm := List Step

def NO_LASER_DIODES : Nat := 15

def ROT_ANG_MAX : ℚ := 310

def ROT_ANG_MIN : ℚ := 265

def MAX_IMG_INTENSITY : ℚ := 255

def TARGET_IMG_INTENSITY : ℚ := 128

def PW_MAX : ℚ := 14000

def PW_LSCI : Nat := 7000

def PWR_START : ℚ := 0.2

def PWR_MAX : ℚ := 1.0

def PWR_MIN : ℚ := 0.01

/-- wle_prgrm (LightController.cpp line 25). -/
def wle_prgrm : Prgrm :=
  [([1, 0.85, 0.85, 1, 0.85, 0.85, 1, 0.85, 0.85, 0, 0, 0, 0, 0, 0], IMG_CHNL.MONO)]

/-- pse_prgrm (lines 26 to 28). -/
def pse_prgrm : Prgrm :=
  [([0.85, 0.85, 0.85, 0, 0, 0, 0, 0, 0, 0, 0, 0, 0, 0, 0], IMG_CHNL.MONO),
   ([0, 0, 0, 0.85, 0.85, 0.85, 0, 0, 0, 0, 0, 0, 0, 0, 0], IMG_CHNL.MONO),
   ([0, 0, 0, 0, 0, 0, 0.85, 0.85, 0.85, 0, 0, 0, 0, 0, 0], IMG_CHNL.MONO)]

/-- lsci_prgrm (lines 29 to 30). -/
def lsci_prgrm : Prgrm :=
  [([1, 0.85, 0.85, 1, 0.85, 0.85, 1, 0.85, 0.85, 0, 0, 0, 0, 0, 0], IMG_CHNL.MONO),
   ([0, 0, 0, 0, 0, 0, 0, 0, 0, 0, 0, 0, 0, 0, 1], IMG_CHNL.RED)]

/-- multi_prgrm (lines 31 to 38).  The initialiser of the second step
(line 32 of the source) lists only fourteen weights: this is transcribed
verbatim, not repaired. -/
def multi_prgrm : Prgrm :=
  [([0, 0, 0, 0, 0, 0, 0, 0, 0, 1, 0, 0, 0, 0, 0], IMG_CHNL.BLUE),
   ([0, 0.7, 0, 0, 1.0, 0, 0, 0, 0, 0, 0, 0, 0, 0], IMG_CHNL.GREEN),
   ([0.7, 0, 0, 1.0, 0, 0, 0, 0, 0, 0, 0, 0, 0, 0, 0], IMG_CHNL.RED),
   ([0, 0, 0.7, 0, 0, 1.0, 0, 0, 0, 0, 0, 0, 0, 0, 0], IMG_CHNL.BLUE),
   ([0, 0, 0, 0, 0, 0, 0, 0, 0, 0, 0, 1, 0, 0, 0], IMG_CHNL.GREEN),
   ([0, 0, 0, 0, 0, 0, 0, 0, 0, 0, 0, 0, 0, 1, 0], IMG_CHNL.RED),
   ([0, 0, 0, 0, 0, 0, 0, 0, 0, 0, 1, 0, 0, 0, 0], IMG_CHNL.BLUE),
   ([0, 0, 0, 0, 0, 0, 0, 0, 0, 0, 0, 0, 1, 0, 0], IMG_CHNL.GREEN)]

/-- ssfdi_prgrm (lines 39 to 40). -/
def ssfdi_prgrm : Prgrm :=
  [([0, 0, 0, 0, 0, 0, 1, 0, 0, 0, 0, 0, 0, 0, 0], IMG_CHNL.RED),
   ([0, 0, 0, 0, 0, 0, 0, 0, 0, 0, 0, 0, 0, 0, 1], IMG_CHNL.RED)]

/-- warmup_prgrm (lines 41 to 42). -/
def warmup_prgrm : Prgrm :=
  [([1, 1, 1, 1, 1, 1, 1, 1, 1, 1, 1, 1, 1, 1, 1], IMG_CHNL.MONO),
   ([1, 1, 1, 1, 1, 1, 1, 1, 1, 1, 1, 1, 1, 1, 1], IMG_CHNL.MONO)]

/-- off_prgrm (line 43). -/
def off_prgrm : Prgrm :=
  [([0, 0, 0, 0, 0, 0, 0, 0, 0, 0, 0, 0, 0, 0, 0], IMG_CHNL.MONO)]

/-- Modulus of the C++ unsigned int fields. -/
def U32 : Nat := 2 ^ 32

/-- C++ unsigned subtraction a - b modulo 2 to the 32. -/
def u32sub (a b : Nat) : Nat := (a % U32 + (U32 - b % U32)) % U32

/-- Per-field mean image intensities in blue, green, red order, as passed
to IncrementPrgrm through oddBgrVals and evenBgrVals. -/
structure Bgr where
  b : ℚ
  g : ℚ
  r : ℚ
deriving DecidableEq, Repr

/-- The record pushed onto the serial transmit queue (ThreadedSerial.h,
output_entry).  The fid field of the source is written from the unsigned
counter mFid, embedded as Nat. -/
structure OutputEntry where
  fid : Nat
  pws : List Nat
deriving DecidableEq, Repr

/-- One call the controller makes to the process-wide logger, by record
kind and payload (the source formats these as tab-separated strings). -/
inductive LogRec where
  | mode (m : Nat)
  | synced
  | buff (n : Nat)
  | vals (v : ℚ)
  | pws (fid : Nat) (widths : List Nat)
  | rotn (p : ℚ)
deriving DecidableEq, Repr

/-- The mutable state of the LightController class (LightController.h,
lines 165 to 175, without the two owned device handles). -/
structure LightController where
  mMode : MODE
  mPrgrm : Prgrm
  mPrgrmCount : Nat
  mBufferOffset : Nat
  mFid : Nat
  mPwrBuffer : List ℚ
  mFrmBuffer : List ℚ
  mRotBuffer : List ℚ
  mSynced : Bool
deriving DecidableEq, Repr

/-- moodycamel try_dequeue on a FIFO list: on an empty queue the
out-parameter keeps its prior value dflt (always 0 in the source). -/
def tryDequeue (q : List ℚ) (dflt : ℚ) : ℚ × List ℚ :=
  match q with
  | [] => (dflt, [])
  | x :: xs => (x, xs)

/-- LightController.ClampPwr (lines 329 to 334). -/
def ClampPwr (pwr : ℚ) : ℚ :=
  if pwr < PWR_MIN then PWR_MIN
  else if pwr > PWR_MAX then PWR_MAX
  else pwr

/-- LightController.UpdatePower (lines 336 to 348). -/
def UpdatePower (prevIntensity prevPwr : ℚ) : ℚ :=
  let yFixed : ℚ := MAX_IMG_INTENSITY + 1
  let alpha : ℚ := (yFixed - TARGET_IMG_INTENSITY) * PWR_MAX
  let newPwr : ℚ := ((yFixed - prevIntensity) * prevPwr * PWR_MAX) /
                    ((TARGET_IMG_INTENSITY - prevIntensity) * prevPwr + alpha)
  if newPwr > 0.999 then 0.999 else newPwr

/-- LightController.Power2RotnAngle (lines 350 to 353). -/
def Power2RotnAngle (power : ℚ) : ℚ :=
  (ROT_ANG_MAX - ROT_ANG_MIN) * power + ROT_ANG_MIN

/-- The switch statement of SetMode (lines 104 to 114): the default case
leaves the installed program unchanged. -/
def prgrmOf (mode : MODE) (old : Prgrm) : Prgrm :=
  match mode with
  | .WLE => wle_prgrm
  | .PSE => pse_prgrm
  | .LSCI => lsci_prgrm
  | .MULTI => multi_prgrm
  | .SSFDI => ssfdi_prgrm
  | .WARMUP => warmup_prgrm
  | .OFF => off_prgrm
  | .SYNC => old

/-- LightController.SetMode (lines 76 to 125).  Returns the new state,
the logger calls made, and the angles commanded to the rotation mount. -/
def SetMode (s : LightController) (mode : MODE) : LightController × List LogRec × List ℚ :=
  if ¬ s.mSynced ∧ ¬ (mode = MODE.SYNC ∨ mode = MODE.WARMUP ∨ mode = MODE.OFF) then
    (s, [], [])
  else
    let rotCmds : List ℚ := if mode = MODE.SSFDI then [Power2RotnAngle 1.0] else []
    let logs : List LogRec := [LogRec.mode mode.code]
    if mode = MODE.SYNC then
      ({ s with mMode := mode, mBufferOffset := 0, mPrgrm := off_prgrm,
                mSynced := false, mPrgrmCount := 0 }, logs, rotCmds)
    else
      ({ s with mMode := mode, mPrgrm := prgrmOf mode s.mPrgrm,
                mPwrBuffer := [], mRotBuffer := [], mFrmBuffer := [],
                mPrgrmCount := 0 }, logs, rotCmds)

/-- Scalar observation selected from the channel means by the autoexposure
channel of the program step (switch at lines 195 to 209). -/
def chnlVal (c : IMG_CHNL) (v : Bgr) : ℚ :=
  match c with
  | .BLUE => v.b
  | .GREEN => v.g
  | .RED => v.r
  | .MONO => (v.b + v.g + v.r) / 3

/-- Ceiling division, the value of (int)ceilf((float)off / (float)size)
for the operand ranges reached by the controller. -/
def ceilDivNat (off size : Nat) : Nat := (off + size - 1) / size

/-- The body of the per-field loop at lines 179 to 242 for one field f
(0 odd, 1 even): feedback observation, next emitted power, per-diode
powers of this field, and the counter increment. -/
def fieldStep (odd evn : Bgr) (f : Nat) (s : LightController) :
    LightController × List ℚ × List LogRec :=
  let size := s.mPrgrm.length
  let prgrmIdx := s.mPrgrmCount % size
  let frameIdx := u32sub s.mPrgrmCount s.mBufferOffset % size
  let afterObs :=
    if s.mPrgrmCount ≥ s.mBufferOffset then
      let vals := if f ≠ 0 then evn else odd
      let prevIntensity := chnlVal (s.mPrgrm.getD frameIdx ([], IMG_CHNL.MONO)).2 vals
      let pq := tryDequeue s.mPwrBuffer 0
      let newPwr := ClampPwr (UpdatePower prevIntensity pq.1)
      ({ s with mPwrBuffer := pq.2, mFrmBuffer := s.mFrmBuffer ++ [newPwr] },
       [LogRec.vals prevIntensity])
    else
      (s, [])
  let s1 := afterObs.1
  let emit :=
    if s.mPrgrmCount ≥ size * ceilDivNat s.mBufferOffset size then
      let fq := tryDequeue s1.mFrmBuffer 0
      (fq.1, { s1 with mFrmBuffer := fq.2 })
    else
      (PWR_START, s1)
  let newPwr := emit.1
  let s2 := { emit.2 with mPwrBuffer := emit.2.mPwrBuffer ++ [newPwr] }
  let weights := (s.mPrgrm.getD prgrmIdx ([], IMG_CHNL.MONO)).1
  let fieldPwrs := (List.range NO_LASER_DIODES).map (fun n =>
      if weights.getD n 0 > 0 then newPwr * weights.getD n 0 else 0)
  ({ s2 with mPrgrmCount := (s2.mPrgrmCount + 1) % U32 }, fieldPwrs, afterObs.2)

/-- The mode dispatch of IncrementPrgrm (lines 132 to 243): produces the
30 per-diode powers pwrs and the state after the counter updates. -/
def corePhase (s : LightController) (odd evn : Bgr) :
    LightController × List ℚ × List LogRec :=
  if s.mMode = MODE.SYNC ∧ ¬ s.mSynced then
    let br :=
      if s.mBufferOffset = 0 then
        ({ s with mBufferOffset := (s.mBufferOffset + 2) % U32 },
         List.replicate NO_LASER_DIODES (1 : ℚ) ++ List.replicate NO_LASER_DIODES 0,
         ([] : List LogRec))
      else
        if (odd.b + odd.g + odd.r) / 3 > 40 then
          ({ s with mSynced := true },
           List.replicate (2 * NO_LASER_DIODES) (0 : ℚ),
           [LogRec.synced, LogRec.buff s.mBufferOffset])
        else
          ({ s with mBufferOffset := (s.mBufferOffset + 2) % U32 },
           List.replicate (2 * NO_LASER_DIODES) (0 : ℚ),
           ([] : List LogRec))
    ({ br.1 with mPrgrmCount := (br.1.mPrgrmCount + 2) % U32 }, br.2.1, br.2.2)
  else if s.mMode = MODE.WARMUP then
    let pwrs := (List.range NO_LASER_DIODES).map
                  (fun i => (s.mPrgrm.getD 0 ([], IMG_CHNL.MONO)).1.getD i 0) ++
                (List.range NO_LASER_DIODES).map
                  (fun i => (s.mPrgrm.getD 1 ([], IMG_CHNL.MONO)).1.getD i 0)
    ({ s with mPrgrmCount := (s.mPrgrmCount + 2) % U32 }, pwrs, [])
  else
    let r0 := fieldStep odd evn 0 s
    let r1 := fieldStep odd evn 1 r0.1
    (r1.1, r0.2.1 ++ r1.2.1, r0.2.2 ++ r1.2.2)

/-- The cast (unsigned short)(PW_MAX * pwr) at line 248: float-to-integer
conversion truncates toward zero; the operand is nonnegative on every
reachable input. -/
def pwOfPwr (pwr : ℚ) : Nat := (Rat.floor (PW_MAX * pwr)).toNat

/-- The result of one per-frame call: new state, records appended to the
serial transmit queue, angles commanded to the rotation mount, logger
calls. -/
structure IncResult where
  state : LightController
  tx : List OutputEntry
  rot : List ℚ
  logs : List LogRec
deriving DecidableEq, Repr

/-- LightController.IncrementPrgrm (lines 127 to 307), without the
receive-side telemetry drain (see the file comment). -/
def IncrementPrgrm (s : LightController) (odd evn : Bgr) : IncResult :=
  let core := corePhase s odd evn
  let s1 := core.1
  let pws0 := core.2.1.map pwOfPwr
  let lsci :=
    if s.mMode = MODE.LSCI then
      let pws := pws0.set 29 PW_LSCI
      let newPwr :=
        if s1.mPrgrmCount ≥ u32sub s1.mBufferOffset (10 * 2) then
          let rq := tryDequeue s1.mRotBuffer 0
          (ClampPwr (UpdatePower evn.r rq.1), rq.2)
        else
          ((0.2 : ℚ), s1.mRotBuffer)
      ({ s1 with mRotBuffer := newPwr.2 ++ [newPwr.1] }, pws,
       [Power2RotnAngle newPwr.1], [LogRec.rotn newPwr.1])
    else
      (s1, pws0, [], [])
  let s2 := lsci.1
  let pws := lsci.2.1
  { state := { s2 with mFid := (s2.mFid + 1) % U32 },
    tx := [{ fid := s2.mFid, pws := pws }],
    rot := lsci.2.2.1,
    logs := core.2.2 ++ lsci.2.2.2 ++ [LogRec.pws s2.mFid pws] }

/-- The controller state right after the constructor (lines 47 to 68):
counters zero, unsynced, and SetMode(OFF) already applied. -/
def initController : LightController :=
  { mMode := MODE.OFF, mPrgrm := off_prgrm, mPrgrmCount := 0,
    mBufferOffset := 0, mFid := 0, mPwrBuffer := [], mFrmBuffer := [],
    mRotBuffer := [], mSynced := false }

/-- Run IncrementPrgrm once per frame over a list of per-frame inputs,
collecting every record appended to the serial transmit queue. -/
def runFrames (s : LightController) (ins : List (Bgr × Bgr)) :
    LightController × List OutputEntry :=
  match ins with
  | [] => (s, [])
  | i :: rest =>
    let r := IncrementPrgrm s i.1 i.2
    let tail := runFrames r.state rest
    (tail.1, r.tx ++ tail.2)

/-- The pulse-width conversion as section 4.5.2 of the specification words
it: pw equals round(PW_MAX times power), clamped to the range [0, PW_MAX].
Stated only to compare against the conversion the source performs
(pwOfPwr); the source is the authority. -/
def pwOfPwrSpec (pwr : ℚ) : Nat := min (round (PW_MAX * pwr)).toNat 14000

/-- Channel means that are all zero (a dark frame). -/
def zeroBgr : Bgr := { b := 0, g := 0, r := 0 }

/-- Channel means of a bright frame, above the sync threshold of 40. -/
def brightBgr : Bgr := { b := 50, g := 50, r := 50 }

/-- Channel means with a bright red channel on this field. -/
def bgrRed200 : Bgr := { b := 0, g := 0, r := 200 }

/-- The controller right after entering SYNC from the initial state. -/
def scn_sync0 : LightController := (SetMode initController MODE.SYNC).1

/-- SYNC after the flash frame: buffer offset 2, still unsynced. -/
def scn_sync1 : LightController := (IncrementPrgrm scn_sync0 zeroBgr zeroBgr).state

/-- SYNC latched: the bright flash reappeared, sync flag set, buffer
offset 2 (the scenario of section 8 of the specification). -/
def scn_synced : LightController := (IncrementPrgrm scn_sync1 brightBgr zeroBgr).state

/-- WLE entered after the SYNC procedure latched. -/
def scn_wle0 : LightController := (SetMode scn_synced MODE.WLE).1

/-- WLE after one dark frame: the bootstrap power is in the pipeline. -/
def scn_wle1 : LightController := (IncrementPrgrm scn_wle0 zeroBgr zeroBgr).state

/-- LSCI entered after the SYNC procedure latched. -/
def scn_lsci0 : LightController := (SetMode scn_synced MODE.LSCI).1

/-- A controller whose frame id has reached the largest unsigned int
value, one invocation away from the wraparound (the state the source
reaches after 2 to the 32 frames). -/
def scn_wrap : LightController := { initController with mFid := U32 - 1 }

/-! Helper lemmas about the embedded operations. -/

theorem fieldStep_mFid (odd evn : Bgr) (f : Nat) (s : LightController) :
    (fieldStep odd evn f s).1.mFid = s.mFid := by
  unfold fieldStep
  dsimp only
  split <;> split <;> rfl

theorem fieldStep_pwrs_length (odd evn : Bgr) (f : Nat) (s : LightController) :
    (fieldStep odd evn f s).2.1.length = NO_LASER_DIODES := by
  unfold fieldStep
  dsimp only
  split <;> split <;> simp

theorem corePhase_mFid (s : LightController) (odd evn : Bgr) :
    (corePhase s odd evn).1.mFid = s.mFid := by
  unfold corePhase
  dsimp only
  split
  · split
    · rfl
    · split <;> rfl
  · split
    · rfl
    · rw [fieldStep_mFid, fieldStep_mFid]

theorem corePhase_pwrs_length (s : LightController) (odd evn : Bgr) :
    (corePhase s odd evn).2.1.length = 2 * NO_LASER_DIODES := by
  unfold corePhase
  dsimp only
  split
  · split
    · simp [NO_LASER_DIODES]
    · split <;> simp [NO_LASER_DIODES]
  · split
    · simp [NO_LASER_DIODES]
    · simp [fieldStep_pwrs_length, NO_LASER_DIODES]

theorem IncrementPrgrm_fid (s : LightController) (odd evn : Bgr) :
    (IncrementPrgrm s odd evn).tx.map OutputEntry.fid = [s.mFid] ∧
    (IncrementPrgrm s odd evn).state.mFid = (s.mFid + 1) % U32 ∧
    (IncrementPrgrm s odd evn).tx.length = 1 := by
  unfold IncrementPrgrm
  dsimp only
  split
  · split <;> simp [corePhase_mFid]
  · simp [corePhase_mFid]

theorem runFrames_length (ins : List (Bgr × Bgr)) (s : LightController) :
    (runFrames s ins).2.length = ins.length := by
  induction ins generalizing s with
  | nil => simp [runFrames]
  | cons i rest ih =>
    have h := IncrementPrgrm_fid s i.1 i.2
    have heq : (runFrames s (i :: rest)).2 =
        (IncrementPrgrm s i.1 i.2).tx ++
          (runFrames (IncrementPrgrm s i.1 i.2).state rest).2 := rfl
    rw [heq, List.length_append, h.2.2, ih (IncrementPrgrm s i.1 i.2).state,
      List.length_cons, Nat.add_comm]

theorem runFrames_fids (ins : List (Bgr × Bgr)) (s : LightController)
    (hs : s.mFid < U32) :
    (runFrames s ins).2.map OutputEntry.fid =
      (List.range ins.length).map (fun k => (s.mFid + k) % U32) := by
  induction ins generalizing s with
  | nil => simp [runFrames]
  | cons i rest ih =>
    have h := IncrementPrgrm_fid s i.1 i.2
    have hs1 : (IncrementPrgrm s i.1 i.2).state.mFid < U32 := by
      rw [h.2.1]
      exact Nat.mod_lt _ (by norm_num [U32])
    have ihs := ih (IncrementPrgrm s i.1 i.2).state hs1
    have heq : (runFrames s (i :: rest)).2 =
        (IncrementPrgrm s i.1 i.2).tx ++
          (runFrames (IncrementPrgrm s i.1 i.2).state rest).2 := rfl
    rw [heq, List.map_append, h.1, ihs, h.2.1, List.length_cons,
      List.range_succ_eq_map]
    simp only [List.map_cons, List.map_map, Function.comp_def, Nat.add_zero,
      List.cons_append, List.nil_append, List.cons.injEq]
    refine ⟨(Nat.mod_eq_of_lt hs).symm, ?_⟩
    refine List.map_congr_left (fun a _ => ?_)
    rw [Nat.mod_add_mod]
    congr 1
    omega

theorem runFrames_fids_nowrap (ins : List (Bgr × Bgr)) (s : LightController)
    (hn : s.mFid + ins.length ≤ U32) :
    (runFrames s ins).2.map OutputEntry.fid =
      (List.range ins.length).map (fun k => s.mFid + k) ∧
    List.Pairwise (fun a b : OutputEntry => a.fid < b.fid) (runFrames s ins).2 := by
  have hmap : (runFrames s ins).2.map OutputEntry.fid =
      (List.range ins.length).map (fun k => s.mFid + k) := by
    cases ins with
    | nil => simp [runFrames]
    | cons i rest =>
      have hs : s.mFid < U32 := by
        have : (i :: rest).length = rest.length + 1 := rfl
        omega
      rw [runFrames_fids (i :: rest) s hs]
      refine List.map_congr_left (fun k hk => ?_)
      have hk2 := List.mem_range.mp hk
      exact Nat.mod_eq_of_lt (by omega)
  refine ⟨hmap, ?_⟩
  have hp : List.Pairwise (fun a b : Nat => a < b)
      ((runFrames s ins).2.map OutputEntry.fid) := by
    rw [hmap]
    exact (List.pairwise_lt_range _).map _ (fun a b hab => by omega)
  exact (List.pairwise_map).mp hp

theorem corePhase_sync_flash (s : LightController) (odd evn : Bgr)
    (hm : s.mMode = MODE.SYNC) (hs : s.mSynced = false) (hb : s.mBufferOffset = 0) :
    corePhase s odd evn =
      ({ s with mBufferOffset := (s.mBufferOffset + 2) % U32,
                mPrgrmCount := (s.mPrgrmCount + 2) % U32 },
       List.replicate NO_LASER_DIODES (1 : ℚ) ++ List.replicate NO_LASER_DIODES 0,
       []) := by
  unfold corePhase
  rw [if_pos (by simp [hm, hs]), if_pos hb]

theorem corePhase_sync_latch (s : LightController) (odd evn : Bgr)
    (hm : s.mMode = MODE.SYNC) (hs : s.mSynced = false) (hb : ¬ s.mBufferOffset = 0)
    (hmean : (odd.b + odd.g + odd.r) / 3 > 40) :
    corePhase s odd evn =
      ({ s with mSynced := true, mPrgrmCount := (s.mPrgrmCount + 2) % U32 },
       List.replicate (2 * NO_LASER_DIODES) (0 : ℚ),
       [LogRec.synced, LogRec.buff s.mBufferOffset]) := by
  unfold corePhase
  rw [if_pos (by simp [hm, hs]), if_neg hb, if_pos hmean]

theorem corePhase_sync_advance (s : LightController) (odd evn : Bgr)
    (hm : s.mMode = MODE.SYNC) (hs : s.mSynced = false) (hb : ¬ s.mBufferOffset = 0)
    (hmean : ¬ ((odd.b + odd.g + odd.r) / 3 > 40)) :
    corePhase s odd evn =
      ({ s with mBufferOffset := (s.mBufferOffset + 2) % U32,
                mPrgrmCount := (s.mPrgrmCount + 2) % U32 },
       List.replicate (2 * NO_LASER_DIODES) (0 : ℚ),
       []) := by
  unfold corePhase
  rw [if_pos (by simp [hm, hs]), if_neg hb, if_neg hmean]

theorem IncrementPrgrm_state_nonlsci (s : LightController) (odd evn : Bgr)
    (hL : ¬ s.mMode = MODE.LSCI) :
    (IncrementPrgrm s odd evn).state =
      { (corePhase s odd evn).1 with
          mFid := ((corePhase s odd evn).1.mFid + 1) % U32 } := by
  unfold IncrementPrgrm
  dsimp only
  rw [if_neg hL]

theorem IncrementPrgrm_pws_nonlsci (s : LightController) (odd evn : Bgr)
    (hL : ¬ s.mMode = MODE.LSCI) :
    (IncrementPrgrm s odd evn).tx.map OutputEntry.pws =
      [(corePhase s odd evn).2.1.map pwOfPwr] := by
  unfold IncrementPrgrm
  dsimp only
  rw [if_neg hL]
  rfl

theorem IncrementPrgrm_pws_lsci (s : LightController) (odd evn : Bgr)
    (h : s.mMode = MODE.LSCI) :
    (IncrementPrgrm s odd evn).tx.map OutputEntry.pws =
      [((corePhase s odd evn).2.1.map pwOfPwr).set 29 PW_LSCI] := by
  unfold IncrementPrgrm
  dsimp only
  rw [if_pos h]
  rfl

/-! Claim theorems. -/

/-- C1: the claim states that every step of every predefined program
table has a weight vector of exactly 15 entries, each in [0,1], so that
the per-frame loop reading indices 0..14 never indexes past the end.
This theorem evaluates the tables as the source initialises them: every
step of WLE, PSE, LSCI, SSFDI, WARMUP and OFF has 15 weights, every
weight of every table lies in [0,1], but step index 1 of the MULTI
program has only 14 weights, so the loop at index 14 reads one past the
end of that vector. -/
theorem C1_program_weight_vectors :
    multi_prgrm.map (fun st => st.1.length) = [15, 14, 15, 15, 15, 15, 15, 15] ∧
    wle_prgrm.map (fun st => st.1.length) = [15] ∧
    pse_prgrm.map (fun st => st.1.length) = [15, 15, 15] ∧
    lsci_prgrm.map (fun st => st.1.length) = [15, 15] ∧
    ssfdi_prgrm.map (fun st => st.1.length) = [15, 15] ∧
    warmup_prgrm.map (fun st => st.1.length) = [15, 15] ∧
    off_prgrm.map (fun st => st.1.length) = [15] ∧
    ((wle_prgrm ++ pse_prgrm ++ lsci_prgrm ++ multi_prgrm ++ ssfdi_prgrm ++
        warmup_prgrm ++ off_prgrm).all
      (fun st => st.1.all (fun w => decide (0 ≤ w ∧ w ≤ 1)))) = true := by
  decide!

/-- C2 counterexample: the claim states that in LSCI mode the outbound
pulse widths at index 14 and index 29 both equal PW_LSCI = 7000.  On the
first LSCI frame after the SYNC procedure, the outbound record has
pws(14) = 0 and pws(29) = 7000, refuting the index-14 half. -/
theorem C2_counterexample :
    scn_lsci0.mMode = MODE.LSCI ∧
    (IncrementPrgrm scn_lsci0 zeroBgr zeroBgr).tx.map
      (fun o => (o.pws.getD 14 0, o.pws.getD 29 0)) = [(0, 7000)] ∧
    ¬ (0 : Nat) = PW_LSCI := by
  decide!

/-- C2 amended: in LSCI mode the outbound pulse widths are the ordinary
truncated conversion of the per-diode powers with only index 29 (the
high-coherence diode on the even field) overwritten to PW_LSCI = 7000;
index 14 (the odd field) keeps its normally computed value. -/
theorem C2_amended_lsci_forces_only_entry_29 (s : LightController) (odd evn : Bgr)
    (h : s.mMode = MODE.LSCI) :
    (IncrementPrgrm s odd evn).tx.map OutputEntry.pws =
      [((corePhase s odd evn).2.1.map pwOfPwr).set 29 PW_LSCI] ∧
    (IncrementPrgrm s odd evn).tx.map (fun o => o.pws.getD 29 0) = [PW_LSCI] ∧
    (IncrementPrgrm s odd evn).tx.map (fun o => o.pws.getD 14 0) =
      [((corePhase s odd evn).2.1.map pwOfPwr).getD 14 0] := by
  have hlen : 29 < ((corePhase s odd evn).2.1.map pwOfPwr).length := by
    rw [List.length_map, corePhase_pwrs_length]
    norm_num [NO_LASER_DIODES]
  have h1 := IncrementPrgrm_pws_lsci s odd evn h
  refine ⟨h1, ?_, ?_⟩
  · have h2 := congrArg (List.map (fun l : List Nat => l.getD 29 0)) h1
    rw [List.map_map] at h2
    refine Eq.trans (by rfl) (h2.trans ?_)
    rw [List.map_cons, List.map_nil, List.getD_eq_getElem?_getD,
      List.getElem?_set_self hlen]
    rfl
  · have h2 := congrArg (List.map (fun l : List Nat => l.getD 14 0)) h1
    rw [List.map_map] at h2
    refine Eq.trans (by rfl) (h2.trans ?_)
    rw [List.map_cons, List.map_nil, List.getD_eq_getElem?_getD,
      List.getElem?_set_ne (by norm_num), ← List.getD_eq_getElem?_getD]

/-- C2 witness: the amended theorem applied to the first LSCI frame
after the SYNC procedure. -/
theorem C2_witness :
    (IncrementPrgrm scn_lsci0 zeroBgr zeroBgr).tx.map
        (fun o => o.pws.getD 29 0) = [PW_LSCI] :=
  (C2_amended_lsci_forces_only_entry_29 scn_lsci0 zeroBgr zeroBgr (by decide!)).2.1

/-- C3: the claim states that in LSCI with buffer offset 2 the bootstrap
rotation power 0.2 is used only until enough observations accumulate and
that the feedback law drives the rotation mount from then on.  The gate
compares the program counter with bufferOffset - 20 in unsigned 32-bit
arithmetic, which underflows to 4294967278 for bufferOffset = 2, so the
bootstrap persists: after 16 LSCI frames whose even-field red mean is a
bright 200, the rotation queue holds sixteen copies of 0.2 and the
feedback update (which at mean 200 would move the power away from 0.2)
has never been applied. -/
theorem C3_rotation_gate_underflow :
    scn_lsci0.mBufferOffset = 2 ∧
    u32sub 2 20 = 4294967278 ∧
    (runFrames scn_lsci0 (List.replicate 16 (zeroBgr, bgrRed200))).1.mRotBuffer =
      List.replicate 16 (0.2 : ℚ) ∧
    ¬ ClampPwr (UpdatePower 200 0.2) = 0.2 := by
  decide!

/-- C4: for every observed mean in [0,255] and prior power in [0,1], the
feedback denominator is strictly positive and the clamped update lies in
[PWR_MIN, 0.999]. -/
theorem C4_update_welldefined_and_clamped (y p : ℚ)
    (hy0 : 0 ≤ y) (hy1 : y ≤ 255) (hp0 : 0 ≤ p) (hp1 : p ≤ 1) :
    0 < (TARGET_IMG_INTENSITY - y) * p +
        (MAX_IMG_INTENSITY + 1 - TARGET_IMG_INTENSITY) * PWR_MAX ∧
    PWR_MIN ≤ ClampPwr (UpdatePower y p) ∧ ClampPwr (UpdatePower y p) ≤ 0.999 := by
  have hden : (0:ℚ) < (128 - y) * p + 128 := by
    nlinarith [mul_nonneg (sub_nonneg.mpr hy1) hp0]
  have hq : UpdatePower y p ≤ 0.999 ∧ 0 ≤ UpdatePower y p := by
    unfold UpdatePower
    dsimp only
    simp only [TARGET_IMG_INTENSITY, MAX_IMG_INTENSITY, PWR_MAX]
    norm_num
    constructor
    · split
      · norm_num
      · rename_i hlt
        rw [not_lt] at hlt
        exact hlt
    · split
      · norm_num
      · exact div_nonneg (by nlinarith) (by linarith)
  refine ⟨?_, ?_, ?_⟩
  · simp only [TARGET_IMG_INTENSITY, MAX_IMG_INTENSITY, PWR_MAX]
    norm_num
    nlinarith [mul_nonneg (sub_nonneg.mpr hy1) hp0]
  · unfold ClampPwr
    split
    · norm_num [PWR_MIN]
    · split
      · norm_num [PWR_MIN, PWR_MAX]
      · rename_i hlo _
        rw [not_lt] at hlo
        exact hlo
  · unfold ClampPwr
    split
    · norm_num [PWR_MIN]
    · split
      · rename_i hhi
        exfalso
        have h1 := hq.1
        norm_num [PWR_MAX] at hhi
        linarith
      · exact hq.1

/-- C4 witness: the theorem applied at mean 200 and power one half. -/
theorem C4_witness :
    ((0:ℚ) ≤ 200 ∧ (200:ℚ) ≤ 255 ∧ (0:ℚ) ≤ 1/2 ∧ (1/2:ℚ) ≤ 1) ∧
    (0 < (TARGET_IMG_INTENSITY - 200) * (1/2) +
        (MAX_IMG_INTENSITY + 1 - TARGET_IMG_INTENSITY) * PWR_MAX ∧
     PWR_MIN ≤ ClampPwr (UpdatePower 200 (1/2)) ∧
     ClampPwr (UpdatePower 200 (1/2)) ≤ 0.999) :=
  ⟨by norm_num,
   C4_update_welldefined_and_clamped 200 (1/2) (by norm_num) (by norm_num)
     (by norm_num) (by norm_num)⟩

/-- C5 counterexample: the claim states that every prior power in
[PWR_MIN, PWR_MAX] is a fixed point of the update at mean TARGET.  At
p = PWR_MAX = 1 the update returns 0.999, not 1, because of the one-shot
cap at 0.999. -/
theorem C5_counterexample :
    (PWR_MIN ≤ (1:ℚ) ∧ (1:ℚ) ≤ PWR_MAX) ∧
    UpdatePower TARGET_IMG_INTENSITY 1 = 0.999 ∧
    ¬ UpdatePower TARGET_IMG_INTENSITY 1 = 1 := by
  decide!

/-- C5 amended: every prior power p with PWR_MIN ≤ p ≤ 0.999 is a fixed
point of the feedback update at observed mean TARGET_IMG_INTENSITY. -/
theorem C5_amended_fixed_point (p : ℚ) (hp0 : PWR_MIN ≤ p) (hp1 : p ≤ 0.999) :
    UpdatePower TARGET_IMG_INTENSITY p = p := by
  unfold UpdatePower
  dsimp only
  simp only [TARGET_IMG_INTENSITY, MAX_IMG_INTENSITY, PWR_MAX]
  norm_num
  intro hgt
  linarith

/-- C5 witness: the amended theorem applied at p equal to one half. -/
theorem C5_witness :
    (PWR_MIN ≤ (1/2:ℚ) ∧ (1/2:ℚ) ≤ 0.999) ∧
    UpdatePower TARGET_IMG_INTENSITY (1/2) = 1/2 :=
  ⟨⟨by norm_num [PWR_MIN], by norm_num⟩,
   C5_amended_fixed_point (1/2) (by norm_num [PWR_MIN]) (by norm_num)⟩

/-- C6: while the mode is SYNC with the sync flag clear, the first
invocation (buffer offset still 0) emits power 1.0 on all 15 odd-field
diodes and 0 on the even field, sets the buffer offset to 2 and advances
the counter by 2; each later invocation latches the sync flag if the
odd-field mean (B+G+R)/3 exceeds 40, leaving the buffer offset in place,
and otherwise advances buffer offset and counter by 2. -/
theorem C6_sync_procedure (s : LightController) (odd evn : Bgr)
    (hm : s.mMode = MODE.SYNC) (hs : s.mSynced = false) :
    (s.mBufferOffset = 0 →
      (corePhase s odd evn).2.1 =
        List.replicate NO_LASER_DIODES (1 : ℚ) ++ List.replicate NO_LASER_DIODES 0 ∧
      (IncrementPrgrm s odd evn).state.mBufferOffset = 2 ∧
      (IncrementPrgrm s odd evn).state.mPrgrmCount = (s.mPrgrmCount + 2) % U32) ∧
    (¬ s.mBufferOffset = 0 → (odd.b + odd.g + odd.r) / 3 > 40 →
      (IncrementPrgrm s odd evn).state.mSynced = true ∧
      (IncrementPrgrm s odd evn).state.mBufferOffset = s.mBufferOffset) ∧
    (¬ s.mBufferOffset = 0 → ¬ ((odd.b + odd.g + odd.r) / 3 > 40) →
      (IncrementPrgrm s odd evn).state.mSynced = false ∧
      (IncrementPrgrm s odd evn).state.mBufferOffset = (s.mBufferOffset + 2) % U32 ∧
      (IncrementPrgrm s odd evn).state.mPrgrmCount = (s.mPrgrmCount + 2) % U32) := by
  have hL : ¬ s.mMode = MODE.LSCI := by simp [hm]
  refine ⟨?_, ?_, ?_⟩
  · intro hb
    rw [IncrementPrgrm_state_nonlsci s odd evn hL,
      corePhase_sync_flash s odd evn hm hs hb]
    refine ⟨rfl, ?_, rfl⟩
    dsimp only
    rw [hb]
    norm_num [U32]
  · intro hb hmean
    rw [IncrementPrgrm_state_nonlsci s odd evn hL,
      corePhase_sync_latch s odd evn hm hs hb hmean]
    exact ⟨rfl, rfl⟩
  · intro hb hmean
    rw [IncrementPrgrm_state_nonlsci s odd evn hL,
      corePhase_sync_advance s odd evn hm hs hb hmean]
    exact ⟨hs, rfl, rfl⟩

/-- C6 witness: the theorem applied to the flash frame of the SYNC
scenario and to the latch frame where the bright flash reappears. -/
theorem C6_witness :
    ((corePhase scn_sync0 zeroBgr zeroBgr).2.1 =
       List.replicate NO_LASER_DIODES (1 : ℚ) ++ List.replicate NO_LASER_DIODES 0 ∧
     (IncrementPrgrm scn_sync0 zeroBgr zeroBgr).state.mBufferOffset = 2 ∧
     (IncrementPrgrm scn_sync0 zeroBgr zeroBgr).state.mPrgrmCount =
       (scn_sync0.mPrgrmCount + 2) % U32) ∧
    ((IncrementPrgrm scn_sync1 brightBgr zeroBgr).state.mSynced = true ∧
     (IncrementPrgrm scn_sync1 brightBgr zeroBgr).state.mBufferOffset =
       scn_sync1.mBufferOffset) :=
  ⟨(C6_sync_procedure scn_sync0 zeroBgr zeroBgr (by decide!) (by decide!)).1
     (by decide!),
   (C6_sync_procedure scn_sync1 brightBgr zeroBgr (by decide!) (by decide!)).2.1
     (by decide!) (by decide!)⟩

/-- C7: when the sync flag is clear, SetMode with any of the five imaging
modes returns with the state unchanged, no logger call and no rotation
mount command. -/
theorem C7_presync_mode_change_ignored (s : LightController) (mode : MODE)
    (hs : s.mSynced = false)
    (hm : mode = MODE.WLE ∨ mode = MODE.PSE ∨ mode = MODE.LSCI ∨
          mode = MODE.MULTI ∨ mode = MODE.SSFDI) :
    SetMode s mode = (s, [], []) := by
  rcases hm with h | h | h | h | h <;> subst h <;> simp [SetMode, hs]

/-- C7 witness: the theorem applied to the initial state and WLE. -/
theorem C7_witness :
    initController.mSynced = false ∧
    SetMode initController MODE.WLE = (initController, [], []) :=
  ⟨rfl, C7_presync_mode_change_ignored initController MODE.WLE rfl (Or.inl rfl)⟩

/-- C8 counterexample: the claim states that every invocation increments
the frame id by exactly 1 and that over any N consecutive invocations the
frame ids are strictly increasing.  mFid is an unsigned int, so at
mFid = 2 to the 32 minus 1 (the state reached after 2 to the 32 frames)
the increment wraps to 0: the next frame id is not mFid + 1, and a run of
two invocations from that state emits frame ids that are not strictly
increasing. -/
theorem C8_counterexample :
    scn_wrap.mFid = U32 - 1 ∧
    (IncrementPrgrm scn_wrap zeroBgr zeroBgr).state.mFid = 0 ∧
    ¬ (IncrementPrgrm scn_wrap zeroBgr zeroBgr).state.mFid = scn_wrap.mFid + 1 ∧
    (runFrames scn_wrap [(zeroBgr, zeroBgr), (zeroBgr, zeroBgr)]).2.map
      OutputEntry.fid = [U32 - 1, 0] ∧
    ¬ List.Pairwise (fun a b : OutputEntry => a.fid < b.fid)
        (runFrames scn_wrap [(zeroBgr, zeroBgr), (zeroBgr, zeroBgr)]).2 := by
  decide!

/-- C8 amended: every per-frame invocation, in every mode and on every
branch, appends exactly one outbound record carrying the current frame id
and then increments the frame id by exactly 1 modulo 2 to the 32 (the
unsigned counter wraps); hence over any run of N consecutive invocations
that does not cross the wraparound (start frame id + N at most 2 to the
32, true of any post-sync run of practical length), exactly N records are
produced, with strictly increasing frame ids. -/
theorem C8_amended_one_record_per_frame :
    (∀ (s : LightController) (odd evn : Bgr),
       (IncrementPrgrm s odd evn).tx.length = 1 ∧
       (IncrementPrgrm s odd evn).tx.map OutputEntry.fid = [s.mFid] ∧
       (IncrementPrgrm s odd evn).state.mFid = (s.mFid + 1) % U32) ∧
    (∀ (s : LightController) (ins : List (Bgr × Bgr)),
       (runFrames s ins).2.length = ins.length ∧
       (s.mFid < U32 →
         (runFrames s ins).2.map OutputEntry.fid =
           (List.range ins.length).map (fun k => (s.mFid + k) % U32)) ∧
       (s.mFid + ins.length ≤ U32 →
         (runFrames s ins).2.map OutputEntry.fid =
           (List.range ins.length).map (fun k => s.mFid + k) ∧
         List.Pairwise (fun a b : OutputEntry => a.fid < b.fid)
           (runFrames s ins).2)) :=
  ⟨fun s odd evn =>
     ⟨(IncrementPrgrm_fid s odd evn).2.2, (IncrementPrgrm_fid s odd evn).1,
      (IncrementPrgrm_fid s odd evn).2.1⟩,
   fun s ins =>
     ⟨runFrames_length ins s, fun hs => runFrames_fids ins s hs,
      fun hn => runFrames_fids_nowrap ins s hn⟩⟩

/-- C8 witness: the amended theorem applied to a three-frame run from the
latched SYNC state, whose frame id 2 is far from the wraparound. -/
theorem C8_witness :
    (runFrames scn_synced (List.replicate 3 (zeroBgr, zeroBgr))).2.map
      OutputEntry.fid =
      (List.range (List.replicate 3 ((zeroBgr, zeroBgr))).length).map
        (fun k => scn_synced.mFid + k) ∧
    List.Pairwise (fun a b : OutputEntry => a.fid < b.fid)
      (runFrames scn_synced (List.replicate 3 (zeroBgr, zeroBgr))).2 :=
  (C8_amended_one_record_per_frame.2 scn_synced
    (List.replicate 3 (zeroBgr, zeroBgr))).2.2 (by decide!)

/-- C9 counterexample: the claim states each outbound pulse width equals
round(PW_MAX times power) clamped to [0, PW_MAX].  On the second WLE
frame after the SYNC scenario with all-zero means, the feedback produces
the power one third; the source truncates 14000/3 to 4666 while the
rounded conversion of the specification gives 4667. -/
theorem C9_counterexample :
    (IncrementPrgrm scn_wle1 zeroBgr zeroBgr).tx.map
      (fun o => o.pws.getD 0 0) = [4666] ∧
    ((corePhase scn_wle1 zeroBgr zeroBgr).2.1.map pwOfPwrSpec).getD 0 0 = 4667 := by
  decide!

/-- C9 amended: outside LSCI mode, the outbound pulse widths are exactly
the per-diode powers converted by truncation toward zero of PW_MAX times
power (no rounding and no explicit clamp); the concrete bootstrap facts
of the claim hold: the first WLE frame after sync with all-zero means
emits power PWR_START on both fields, giving diode-0 width 2800 and
diode-1 width 2380. -/
theorem C9_amended_truncated_widths (s : LightController) (odd evn : Bgr)
    (hL : ¬ s.mMode = MODE.LSCI) :
    (IncrementPrgrm s odd evn).tx.map OutputEntry.pws =
      [(corePhase s odd evn).2.1.map pwOfPwr] ∧
    (IncrementPrgrm scn_wle0 zeroBgr zeroBgr).tx.map
      (fun o => (o.pws.getD 0 0, o.pws.getD 1 0)) = [(2800, 2380)] ∧
    (IncrementPrgrm scn_wle0 zeroBgr zeroBgr).state.mPwrBuffer =
      [PWR_START, PWR_START] := by
  refine ⟨IncrementPrgrm_pws_nonlsci s odd evn hL, by decide!, by decide!⟩

/-- C9 witness: the amended theorem applied to the first WLE frame after
the SYNC scenario. -/
theorem C9_witness :
    (IncrementPrgrm scn_wle0 zeroBgr zeroBgr).tx.map OutputEntry.pws =
      [(corePhase scn_wle0 zeroBgr zeroBgr).2.1.map pwOfPwr] :=
  (C9_amended_truncated_widths scn_wle0 zeroBgr zeroBgr (by decide!)).1

/-- C10 counterexample: the claim states that every mode change,
including a change to SYNC, leaves the three feedback queues empty.
After one WLE frame the emitted-power queue holds two entries; changing
the mode to SYNC leaves them in place. -/
theorem C10_counterexample :
    scn_wle1.mMode = MODE.WLE ∧
    scn_wle1.mPwrBuffer = [PWR_START, PWR_START] ∧
    (SetMode scn_wle1 MODE.SYNC).1.mMode = MODE.SYNC ∧
    (SetMode scn_wle1 MODE.SYNC).1.mPwrBuffer = [PWR_START, PWR_START] ∧
    ¬ (SetMode scn_wle1 MODE.SYNC).1.mPwrBuffer = [] := by
  decide!

/-- C10 amended: every SetMode call that passes the pre-sync guard
resets the program counter to 0; the three feedback queues are drained
exactly when the target mode is not SYNC, and a change to SYNC leaves
all three queues untouched. -/
theorem C10_amended_buffers_on_mode_change (s : LightController) (mode : MODE)
    (h : s.mSynced = true ∨ mode = MODE.SYNC ∨ mode = MODE.WARMUP ∨ mode = MODE.OFF) :
    (SetMode s mode).1.mPrgrmCount = 0 ∧
    (¬ mode = MODE.SYNC → (SetMode s mode).1.mPwrBuffer = [] ∧
      (SetMode s mode).1.mFrmBuffer = [] ∧ (SetMode s mode).1.mRotBuffer = []) ∧
    (mode = MODE.SYNC → (SetMode s mode).1.mPwrBuffer = s.mPwrBuffer ∧
      (SetMode s mode).1.mFrmBuffer = s.mFrmBuffer ∧
      (SetMode s mode).1.mRotBuffer = s.mRotBuffer) := by
  have hcond : ¬ (¬ s.mSynced = true ∧
      ¬ (mode = MODE.SYNC ∨ mode = MODE.WARMUP ∨ mode = MODE.OFF)) := by
    rcases h with h | h | h | h <;> simp [h]
  unfold SetMode
  rw [if_neg (by simpa using hcond)]
  dsimp only
  by_cases hsync : mode = MODE.SYNC
  · rw [if_pos hsync]
    simp [hsync]
  · rw [if_neg hsync]
    simp [hsync]

/-- C10 witness: the amended theorem applied to entering WLE from the
latched SYNC state, where all three queues are drained and the counter
is reset. -/
theorem C10_witness :
    (SetMode scn_synced MODE.WLE).1.mPrgrmCount = 0 ∧
    ((SetMode scn_synced MODE.WLE).1.mPwrBuffer = [] ∧
     (SetMode scn_synced MODE.WLE).1.mFrmBuffer = [] ∧
     (SetMode scn_synced MODE.WLE).1.mRotBuffer = []) :=
  ⟨(C10_amended_buffers_on_mode_change scn_synced MODE.WLE (Or.inl (by decide!))).1,
   (C10_amended_buffers_on_mode_change scn_synced MODE.WLE
      (Or.inl (by decide!))).2.1 (by decide!)⟩

end MLE
